import Mathlib

/-!
Verification development for the FlagWise chatbot-monitoring repository.

The repository source under scrutiny consists of the API data contracts
(`src/services/api/models.py`) and two client scripts
(`src/chatbot_integration_example.py`, `src/test_chatbot_monitoring.py`).
The detection/session/alert engine itself is not part of the provided
source; it is modelled here from the specification, faithfully to the
specification's words, and the claims are settled against that model.
The `monitor_response` client function is embedded from the actual code.
-/

namespace Trust

/-! ## Basic enumerations (from `src/services/api/models.py` field patterns) -/

/-- Severity levels, from the `severity` field pattern
`^(critical|high|medium|low)$` in `models.py`. -/
inductive Severity where
  | low
  | medium
  | high
  | critical
deriving DecidableEq

/-- Rule categories, from the `category` field pattern
`^(data_privacy|security|compliance)$` in `models.py`. -/
inductive RuleCategory where
  | data_privacy
  | security
  | compliance
deriving DecidableEq

/-- Rule types, from the `rule_type` field pattern
`^(keyword|regex|model_restriction|custom_scoring)$` in `models.py`. -/
inductive RuleType where
  | keyword
  | regex
  | model_restriction
  | custom_scoring
deriving DecidableEq

/-- Combination logic, from the `combination_logic` field pattern
`^(AND|OR)$` in `models.py`. -/
inductive CombinationLogic where
  | AND
  | OR
deriving DecidableEq

/-- A detection rule, mirroring `DetectionRuleResponse` in `models.py`
(timestamps and description omitted; UUIDs modelled as naturals). -/
structure DetectionRule where
  id : Nat
  name : String
  category : RuleCategory
  rule_type : RuleType
  pattern : String
  severity : Severity
  points : Nat
  priority : Nat
  stop_on_match : Bool
  combination_logic : CombinationLogic
  is_active : Bool
deriving DecidableEq

/-- One prompt/response exchange to be scored, from the spec's
`PromptResponsePair` interface (prompt, response, model, provider). -/
structure Pair where
  prompt : String
  response : String
  model : String
  provider : String
deriving DecidableEq

/-- A scoring result, mirroring the spec's `ScoringResult` and the
`risk_score`/`is_flagged`/`flag_reason` fields of `models.py`.
`flag_reason` is kept as the ordered list of matched-rule descriptions. -/
structure ScoringResult where
  risk_score : Nat
  is_flagged : Bool
  flag_reason : List String
  matched_rule_ids : List Nat
deriving DecidableEq

/-- A monitored chatbot, mirroring the fields of `ChatbotCreate` in
`models.py` that matter to scoring (`risk_threshold` defaults to 70 there). -/
structure Chatbot where
  name : String
  model : String
  provider : String
  monitoring_enabled : Bool
  risk_threshold : Nat
  alert_on_risk : Bool
deriving DecidableEq

/-- Default flag threshold: `risk_threshold: int = Field(default=70, ...)`
in `models.py` (`ChatbotCreate` and `ChatbotResponse`). -/
def defaultRiskThreshold : Nat := 70

/-! ## Character-level helpers for the matchers -/

/-- Lowercase a single character (ASCII case fold). -/
def lowerChar (c : Char) : Char :=
  if 65 ≤ c.toNat ∧ c.toNat ≤ 90 then Char.ofNat (c.toNat + 32) else c

/-- Lowercased character data of a string. -/
def lowerData (s : String) : List Char := s.data.map lowerChar

/-- Does the first list occur as a leading segment of the second? -/
def listStartsWith : List Char → List Char → Bool
  | [], _ => true
  | _ :: _, [] => false
  | a :: as, b :: bs => a == b && listStartsWith as bs

/-- Does the first list occur as a contiguous segment of the second? -/
def listContainsSeq (needle : List Char) : List Char → Bool
  | [] => listStartsWith needle []
  | b :: bs => listStartsWith needle (b :: bs) || listContainsSeq needle bs

/-- Split a character list on a delimiter character. -/
def splitChar (delim : Char) : List Char → List (List Char)
  | [] => [[]]
  | a :: as =>
    if a == delim then [] :: splitChar delim as
    else
      match splitChar delim as with
      | [] => [[a]]
      | g :: gs => (a :: g) :: gs

/-- Drop leading and trailing spaces from a character list. -/
def trimSpaces (cs : List Char) : List Char :=
  ((cs.dropWhile (fun c => c == ' ')).reverse.dropWhile (fun c => c == ' ')).reverse

/-! ## Matcher Library

Modelled from the spec: the Matcher Library (stateless predicate functions,
one per rule type) is not present in `src/`; it is modelled here from
spec section 4.1. -/

/-- Modelled from the spec: a keyword pattern is "a delimited set of literal
terms"; the delimiter is taken to be a comma, terms are trimmed,
lowercased, and empty terms dropped. -/
def keywordTerms (pattern : String) : List (List Char) :=
  ((splitChar ',' pattern.data).map (fun t => (trimSpaces t).map lowerChar)).filter
    (fun t => !t.isEmpty)

/-- Modelled from the spec: matchers "independently test prompt and response
text; a rule may match on either field" — a term is present when it is a
case-insensitive contiguous segment of either field. -/
def textHas (pair : Pair) (term : List Char) : Bool :=
  listContainsSeq term (lowerData pair.prompt) || listContainsSeq term (lowerData pair.response)

/-- Scan a regex pattern for well-formedness: balanced parentheses and
character classes and no dangling escape. -/
def regexScan : List Char → Nat → Nat → Bool
  | [], p, b => p == 0 && b == 0
  | '\\' :: rest, p, b =>
    match rest with
    | [] => false
    | _ :: rest2 => regexScan rest2 p b
  | '(' :: rest, p, b => regexScan rest (p + 1) b
  | ')' :: rest, p, b => p != 0 && regexScan rest (p - 1) b
  | '[' :: rest, p, b => regexScan rest p (b + 1)
  | ']' :: rest, p, b => b != 0 && regexScan rest p (b - 1)
  | _ :: rest, p, b => regexScan rest p b

/-- Modelled from the spec: the repository ships no regex engine; a pattern
is malformed when its brackets are unbalanced or it ends in a dangling
escape, which is the only distinction the claims about regex rules use. -/
def wellFormedRegex (pattern : String) : Bool :=
  regexScan pattern.data 0 0

/-- Regex metacharacters erased when a well-formed pattern is approximated
by its literal content. -/
def regexMeta : List Char := ['.', '*', '+', '?', '(', ')', '[', ']', '\\', '|', '^', '$']

/-- Modelled from the spec: matching of a well-formed regex pattern is
approximated by case-insensitive containment of the pattern's literal
(metacharacter-free) content; no claim depends on finer regex semantics. -/
def regexLiteral (pattern : String) : List Char :=
  (pattern.data.filter (fun c => !(regexMeta.contains c))).map lowerChar

/-- Modelled from the spec: the type-specific matcher of section 4.1
(steps 2-3). Returns `none` exactly when the rule's pattern is a malformed
regex, `some b` otherwise, where `b` tells whether the rule matched:
`keyword` = any term a case-insensitive substring; `regex` = any match of a
well-formed pattern; `model_restriction` = the event's declared model is in
the disallowed list; `custom_scoring` = sub-terms combined via the rule's
own `combination_logic` (AND requires all present, OR at least one). -/
def matchRule (pair : Pair) (r : DetectionRule) : Option Bool :=
  match r.rule_type with
  | RuleType.keyword => some ((keywordTerms r.pattern).any (textHas pair))
  | RuleType.regex =>
    if wellFormedRegex r.pattern then some (textHas pair (regexLiteral r.pattern))
    else none
  | RuleType.model_restriction =>
    some ((keywordTerms r.pattern).any (fun t => t == lowerData pair.model))
  | RuleType.custom_scoring =>
    match r.combination_logic with
    | CombinationLogic.AND => some ((keywordTerms r.pattern).all (textHas pair))
    | CombinationLogic.OR => some ((keywordTerms r.pattern).any (textHas pair))

/-! ## Detection Rule Engine

Modelled from the spec: the Detection Rule Engine
(`Evaluate(pair, ruleSet) -> ScoringResult`, spec section 4.1) is absent
from `src/`; only its configuration surface (`models.py`) is present. -/

/-- Running evaluation state of the rule loop: capped score, ordered
reasons, matched rule ids, and the early-termination flag. -/
structure EvalState where
  score : Nat
  reasons : List String
  ids : List Nat
  stopped : Bool
deriving DecidableEq

/-- The reason string recorded for a matched rule: `rule.name` plus the
matched fragment (modelled as the rule's pattern). -/
def ruleReason (r : DetectionRule) : String :=
  r.name ++ ": " ++ r.pattern

/-- Modelled from the spec: one iteration of the evaluation loop
(section 4.1 steps 2, 4, 5). A stopped state is frozen; an inactive rule is
skipped; a malformed rule (matcher `none`) contributes no points and is
skipped; on a match the rule's points are added capped at 100, the reason
and rule id are recorded, and `stop_on_match` terminates the iteration. -/
def applyRule (pair : Pair) (st : EvalState) (r : DetectionRule) : EvalState :=
  if st.stopped then st
  else if r.is_active then
    match matchRule pair r with
    | some true =>
      { score := min 100 (st.score + r.points)
        reasons := st.reasons ++ [ruleReason r]
        ids := st.ids ++ [r.id]
        stopped := r.stop_on_match }
    | _ => st
  else st

/-- Modelled from the spec: the rule-set iteration (section 4.1 step 1),
consuming the ordered rule set in order. -/
def evalRules (pair : Pair) (ruleSet : List DetectionRule) (st : EvalState) : EvalState :=
  ruleSet.foldl (applyRule pair) st

/-- The initial evaluation state. -/
def initState : EvalState :=
  { score := 0, reasons := [], ids := [], stopped := false }

/-- Modelled from the spec: final flag decision (section 4.1 step 6) —
flagged when terminated early by `stop_on_match`, or when the capped
running total reaches the configured threshold. -/
def mkResult (threshold : Nat) (st : EvalState) : ScoringResult :=
  { risk_score := st.score
    is_flagged := st.stopped || decide (threshold ≤ st.score)
    flag_reason := st.reasons
    matched_rule_ids := st.ids }

/-- Modelled from the spec: `Evaluate(pair, ruleSet) -> ScoringResult`
over an ordered rule-set snapshot, with an explicit flag threshold. -/
def evaluate (pair : Pair) (ruleSet : List DetectionRule) (threshold : Nat) : ScoringResult :=
  mkResult threshold (evalRules pair ruleSet initState)

/-- Evaluate with the default threshold of 70. -/
def evaluateDefault (pair : Pair) (ruleSet : List DetectionRule) : ScoringResult :=
  evaluate pair ruleSet defaultRiskThreshold

/-- Evaluate with a monitored chatbot's own `risk_threshold` override. -/
def evaluateForChatbot (cb : Chatbot) (pair : Pair) (ruleSet : List DetectionRule) :
    ScoringResult :=
  evaluate pair ruleSet cb.risk_threshold

/-- Modelled from the spec: the non-fatal diagnostics reported to the
caller — one per active rule whose pattern failed to compile (matcher
`none`); never an exception. -/
def evaluateDiagnostics (pair : Pair) (ruleSet : List DetectionRule) : List String :=
  (ruleSet.filter (fun r => r.is_active && (matchRule pair r).isNone)).map (fun r => r.name)

/-- Ordering of the rule set: ascending `priority`, ties broken by `id`
(spec section 3, `DetectionRule`). -/
def ruleLE (a b : DetectionRule) : Bool :=
  decide (a.priority < b.priority ∨ (a.priority = b.priority ∧ a.id ≤ b.id))

/-- Insert a rule at its ordered position. -/
def insertRule (x : DetectionRule) : List DetectionRule → List DetectionRule
  | [] => [x]
  | y :: ys => if ruleLE x y then x :: y :: ys else y :: insertRule x ys

/-- Insertion sort of rules by `ruleLE`. -/
def orderRules : List DetectionRule → List DetectionRule
  | [] => []
  | x :: xs => insertRule x (orderRules xs)

/-- Modelled from the spec: the Rule Set component — "an ordered,
immutable-per-evaluation snapshot of active detection rules (sorted by
priority)". -/
def buildRuleSet (rules : List DetectionRule) : List DetectionRule :=
  orderRules (rules.filter (fun r => r.is_active))

/-! ## Session Aggregator

Modelled from the spec: the Session Aggregator (`Ingest(event)`, spec
section 4.2) is absent from `src/`; only the `SessionResponse` and
`SessionDetail` schemas are present in `models.py`. -/

/-- A scored event handed to the aggregator: the scoring outcome plus the
event's timestamp (minutes, as naturals). -/
structure ScoredEvent where
  risk_score : Nat
  is_flagged : Bool
  timestamp : Nat
deriving DecidableEq

/-- Modelled from the spec: the severity bucket derived from a risk score —
"`critical ≥ 90`, `high ≥ 70`, `medium ≥ 40`, else `low`". -/
def scoreBucket (score : Nat) : Severity :=
  if 90 ≤ score then Severity.critical
  else if 70 ≤ score then Severity.high
  else if 40 ≤ score then Severity.medium
  else Severity.low

/-- Session state, mirroring `SessionResponse`/`SessionDetail` in
`models.py`: the `risk_breakdown` counts are the four `count_*` fields,
`avg_risk_score` is derived from the maintained sum `risk_total`. -/
structure Session where
  src_ip : String
  start_time : Nat
  end_time : Nat
  request_count : Nat
  risk_total : Nat
  flagged_count : Nat
  count_critical : Nat
  count_high : Nat
  count_medium : Nat
  count_low : Nat
  risk_level : Severity
deriving DecidableEq

/-- The `risk_breakdown` count of one severity bucket. -/
def Session.bucketCount (s : Session) : Severity → Nat
  | Severity.critical => s.count_critical
  | Severity.high => s.count_high
  | Severity.medium => s.count_medium
  | Severity.low => s.count_low

/-- The running mean of ingested events' risk scores (exact, over ℚ;
`models.py` stores it as a float). -/
def Session.avg_risk_score (s : Session) : ℚ :=
  (s.risk_total : ℚ) / (s.request_count : ℚ)

/-- Numeric rank of a severity (critical > high > medium > low). -/
def sevRank : Severity → Nat
  | Severity.low => 0
  | Severity.medium => 1
  | Severity.high => 2
  | Severity.critical => 3

/-- The more severe of two severities. -/
def maxSev (a b : Severity) : Severity :=
  if sevRank a ≤ sevRank b then b else a

/-- Modelled from the spec: the highest-severity bucket with a non-zero
count in the session's `risk_breakdown` (section 4.2, risk_level
recomputation — "session risk escalates to the worst severity observed,
not an average"). -/
def worstNonzeroBucket (s : Session) : Severity :=
  if s.count_critical ≠ 0 then Severity.critical
  else if s.count_high ≠ 0 then Severity.high
  else if s.count_medium ≠ 0 then Severity.medium
  else Severity.low

/-- A fresh, empty session for an actor, opened at a timestamp
(spec: "create one with `start_time = event.timestamp`"). -/
def Session.empty (ip : String) (t : Nat) : Session :=
  { src_ip := ip, start_time := t, end_time := t, request_count := 0, risk_total := 0
    flagged_count := 0, count_critical := 0, count_high := 0, count_medium := 0
    count_low := 0, risk_level := Severity.low }

/-- Modelled from the spec: `Ingest` (section 4.2) — increment
`request_count`, add the score into the running mean, increment
`flagged_count` if flagged, increment the matching `risk_breakdown`
bucket, and recompute `risk_level` as the highest bucket with a non-zero
count (default window: all events in session). -/
def Session.ingest (s : Session) (e : ScoredEvent) : Session :=
  let b := scoreBucket e.risk_score
  let s2 : Session :=
    { src_ip := s.src_ip
      start_time := s.start_time
      end_time := e.timestamp
      request_count := s.request_count + 1
      risk_total := s.risk_total + e.risk_score
      flagged_count := s.flagged_count + (if e.is_flagged then 1 else 0)
      count_critical := s.count_critical + (if b = Severity.critical then 1 else 0)
      count_high := s.count_high + (if b = Severity.high then 1 else 0)
      count_medium := s.count_medium + (if b = Severity.medium then 1 else 0)
      count_low := s.count_low + (if b = Severity.low then 1 else 0)
      risk_level := Severity.low }
  { s2 with risk_level := worstNonzeroBucket s2 }

/-- The session state reached by opening a session for an actor and
ingesting a sequence of events in arrival order. -/
def replaySession (ip : String) (t : Nat) (events : List ScoredEvent) : Session :=
  events.foldl Session.ingest (Session.empty ip t)

/-! ## Alert Rule Engine (deduplication)

Modelled from the spec: the Alert Rule Engine (spec section 4.3) is absent
from `src/`; only the `Alert*` schemas are present in `models.py`. -/

/-- Alert lifecycle status, from the `status` field pattern
`^(new|acknowledged|resolved)$` in `models.py` (`AlertUpdate`). -/
inductive AlertStatus where
  | new
  | acknowledged
  | resolved
deriving DecidableEq

/-- An alert produced by the Alert Rule Engine, keyed by the
`(alert_rule_id, actor)` pairing used for deduplication. -/
structure Alert where
  alert_rule_id : Nat
  actor : String
  status : AlertStatus
  created_at : Nat
deriving DecidableEq

/-- Default cool-down window between repeated alerts for the same
rule/actor pairing: 15 minutes (spec section 4.3). -/
def defaultCooldownMinutes : Nat := 15

/-- Does this alert keep the `(alert_rule_id, actor)` pairing occupied —
i.e. is it for that pairing and still in `new` or `acknowledged` status? -/
def alertActiveFor (ruleId : Nat) (actor : String) (a : Alert) : Bool :=
  decide (a.alert_rule_id = ruleId ∧ a.actor = actor ∧
    (a.status = AlertStatus.new ∨ a.status = AlertStatus.acknowledged))

/-- Modelled from the spec: the deduplication check — an identical pairing
must not re-fire while an existing alert for it remains `new`/`acknowledged`
within the cool-down window. -/
def dedupBlocked (alerts : List Alert) (ruleId : Nat) (actor : String)
    (t cooldown : Nat) : Bool :=
  alerts.any (fun a => alertActiveFor ruleId actor a && decide (t < a.created_at + cooldown))

/-- Modelled from the spec: the check-then-create step of alert emission —
create a `new` alert for the pairing at time `t` unless deduplication
blocks it. -/
def emitAlert (alerts : List Alert) (ruleId : Nat) (actor : String)
    (t cooldown : Nat) : List Alert :=
  if dedupBlocked alerts ruleId actor t cooldown then alerts
  else alerts ++ [{ alert_rule_id := ruleId, actor := actor, status := AlertStatus.new
                    created_at := t }]

/-- The number of alerts for a pairing still in `new`/`acknowledged`
status. -/
def activeCount (alerts : List Alert) (ruleId : Nat) (actor : String) : Nat :=
  (alerts.filter (alertActiveFor ruleId actor)).length

/-! ## `FlagWiseChatbotMonitor.monitor_response`

Embedded from `src/chatbot_integration_example.py` (lines 42-77). The
network effect is made explicit: the outcome of the POST to
`/chatbots/monitor` is an input of the function. -/

/-- The outcome of `requests.post`: either a response with an HTTP status
and a parsed JSON body (modelled as a key/value list), or a raised
`requests.exceptions.RequestException` carrying its string. -/
inductive PostOutcome where
  | response (status : Nat) (body : List (String × String))
  | raised (message : String)
deriving DecidableEq

/-- The string of the `requests.exceptions.HTTPError` raised by
`raise_for_status` for a 4xx/5xx status. -/
def httpErrorMessage (status : Nat) : String :=
  if status < 500 then toString status ++ " Client Error" else toString status ++ " Server Error"

/-- `Response.raise_for_status`: raises an `HTTPError` (a
`RequestException`) exactly for statuses in [400, 600). -/
def raiseForStatus (status : Nat) : Option String :=
  if 400 ≤ status ∧ status < 600 then some (httpErrorMessage status) else none

/-- `FlagWiseChatbotMonitor.monitor_response` from
`src/chatbot_integration_example.py`: POST the payload; on any
`RequestException` (including the `HTTPError` from `raise_for_status`)
return `{"error": str(e)}`; otherwise return `response.json()`. -/
def monitor_response (outcome : PostOutcome) : List (String × String) :=
  match outcome with
  | PostOutcome.raised msg => [("error", msg)]
  | PostOutcome.response status body =>
    match raiseForStatus status with
    | some msg => [("error", msg)]
    | none => body

/-! ## Concrete scenario inputs (spec section 8) -/

/-- Scenario A/B input pair: response text
`"your password is x and api key is y"`. -/
def pairA : Pair :=
  { prompt := "what is my password", response := "your password is x and api key is y"
    model := "gpt-4", provider := "openai" }

/-- Scenario A rule 1: keyword `password`, 50 points, priority 1,
`stop_on_match = false`. -/
def ruleA1 : DetectionRule :=
  { id := 1, name := "password leak", category := RuleCategory.data_privacy
    rule_type := RuleType.keyword, pattern := "password", severity := Severity.high
    points := 50, priority := 1, stop_on_match := false
    combination_logic := CombinationLogic.AND, is_active := true }

/-- Scenario A rule 2: keyword `api key`, 60 points, priority 2,
`stop_on_match = false`. -/
def ruleA2 : DetectionRule :=
  { id := 2, name := "api key leak", category := RuleCategory.security
    rule_type := RuleType.keyword, pattern := "api key", severity := Severity.critical
    points := 60, priority := 2, stop_on_match := false
    combination_logic := CombinationLogic.AND, is_active := true }

/-- Scenario B rule 1: as `ruleA1` but with `stop_on_match = true`. -/
def ruleB1 : DetectionRule :=
  { ruleA1 with stop_on_match := true }

/-- Pair whose response leaks a password, for the monotonicity
counterexample. -/
def pairPw : Pair :=
  { prompt := "tell me", response := "the password is hunter2", model := "gpt-4"
    provider := "openai" }

/-- An 80-point matching keyword rule without `stop_on_match`. -/
def rulePw80 : DetectionRule :=
  { id := 10, name := "password mention", category := RuleCategory.data_privacy
    rule_type := RuleType.keyword, pattern := "password", severity := Severity.high
    points := 80, priority := 5, stop_on_match := false
    combination_logic := CombinationLogic.AND, is_active := true }

/-- A 10-point matching keyword rule with `stop_on_match = true` and a
lower priority number, so it is evaluated first. -/
def ruleStop10 : DetectionRule :=
  { id := 11, name := "password fast path", category := RuleCategory.data_privacy
    rule_type := RuleType.keyword, pattern := "password", severity := Severity.low
    points := 10, priority := 1, stop_on_match := true
    combination_logic := CombinationLogic.AND, is_active := true }

/-- An active regex rule with a malformed pattern (unbalanced
parenthesis). -/
def ruleBadRegex : DetectionRule :=
  { id := 20, name := "broken regex", category := RuleCategory.security
    rule_type := RuleType.regex, pattern := "(unclosed", severity := Severity.medium
    points := 30, priority := 3, stop_on_match := false
    combination_logic := CombinationLogic.AND, is_active := true }

/-- Four events whose scores average to 25 (bucket `low`) while the worst
event is `critical`: separates worst-bucket from average-bucket session
risk. -/
def demoEvents : List ScoredEvent :=
  [{ risk_score := 100, is_flagged := true, timestamp := 0 },
   { risk_score := 0, is_flagged := false, timestamp := 1 },
   { risk_score := 0, is_flagged := false, timestamp := 2 },
   { risk_score := 0, is_flagged := false, timestamp := 3 }]

/-- Scenario C: five events for one actor within 2 minutes, three of them
flagged. -/
def eventsC : List ScoredEvent :=
  [{ risk_score := 95, is_flagged := true, timestamp := 0 },
   { risk_score := 20, is_flagged := false, timestamp := 0 },
   { risk_score := 80, is_flagged := true, timestamp := 1 },
   { risk_score := 10, is_flagged := false, timestamp := 1 },
   { risk_score := 75, is_flagged := true, timestamp := 2 }]

/-! ## Engine lemmas -/

theorem evalRules_cons (pair : Pair) (r : DetectionRule) (rest : List DetectionRule)
    (st : EvalState) :
    evalRules pair (r :: rest) st = evalRules pair rest (applyRule pair st r) := rfl

theorem evalRules_append (pair : Pair) (l1 l2 : List DetectionRule) (st : EvalState) :
    evalRules pair (l1 ++ l2) st = evalRules pair l2 (evalRules pair l1 st) :=
  List.foldl_append _ _ _ _

theorem applyRule_stopped_id (pair : Pair) (st : EvalState) (r : DetectionRule)
    (h : st.stopped = true) : applyRule pair st r = st := by
  simp [applyRule, h]

theorem evalRules_frozen (pair : Pair) (l : List DetectionRule) (st : EvalState)
    (h : st.stopped = true) : evalRules pair l st = st := by
  induction l with
  | nil => rfl
  | cons r rest ih => rw [evalRules_cons, applyRule_stopped_id pair st r h]; exact ih

theorem applyRule_none (pair : Pair) (st : EvalState) (r : DetectionRule)
    (hm : matchRule pair r = none) : applyRule pair st r = st := by
  unfold applyRule
  split_ifs <;> simp [hm]

theorem applyRule_score_le (pair : Pair) (st : EvalState) (r : DetectionRule)
    (h : st.score ≤ 100) : (applyRule pair st r).score ≤ 100 := by
  unfold applyRule
  split_ifs with h1 h2
  · exact h
  · rcases hm : matchRule pair r with _ | b
    · simp only [hm]
      exact h
    · cases b
      · simp only [hm]
        exact h
      · simp only [hm]
        exact Nat.min_le_left 100 (st.score + r.points)
  · exact h

theorem evalRules_score_le (pair : Pair) (l : List DetectionRule) :
    ∀ st : EvalState, st.score ≤ 100 → (evalRules pair l st).score ≤ 100 := by
  induction l with
  | nil => intro st h; exact h
  | cons r rest ih =>
    intro st h
    rw [evalRules_cons]
    exact ih _ (applyRule_score_le pair st r h)

theorem applyRule_le_self (pair : Pair) (st : EvalState) (r : DetectionRule)
    (h : st.score ≤ 100) : st.score ≤ (applyRule pair st r).score := by
  unfold applyRule
  split_ifs with h1 h2
  · exact le_refl _
  · rcases hm : matchRule pair r with _ | b
    · simp [hm]
    · cases b
      · simp [hm]
      · simpa [hm] using le_min h (Nat.le_add_right st.score r.points)
  · exact le_refl _

theorem applyRule_mono (pair : Pair) (r : DetectionRule) (s1 s2 : EvalState)
    (hst : s2.stopped = s1.stopped) (hsc : s2.score ≤ s1.score) :
    (applyRule pair s2 r).score ≤ (applyRule pair s1 r).score ∧
      (applyRule pair s2 r).stopped = (applyRule pair s1 r).stopped := by
  unfold applyRule
  rw [hst]
  split_ifs with h1 h2
  · exact ⟨hsc, hst⟩
  · rcases hm : matchRule pair r with _ | b
    · simp only [hm]
      exact ⟨hsc, hst⟩
    · cases b
      · simp only [hm]
        exact ⟨hsc, hst⟩
      · simp only [hm]
        exact ⟨min_le_min (le_refl 100) (Nat.add_le_add_right hsc _), trivial⟩
  · exact ⟨hsc, hst⟩

theorem evalRules_mono (pair : Pair) (l : List DetectionRule) :
    ∀ s1 s2 : EvalState, s2.stopped = s1.stopped → s2.score ≤ s1.score →
      (evalRules pair l s2).score ≤ (evalRules pair l s1).score := by
  induction l with
  | nil => intro s1 s2 _ h; exact h
  | cons r rest ih =>
    intro s1 s2 hst hsc
    rw [evalRules_cons, evalRules_cons]
    obtain ⟨h1, h2⟩ := applyRule_mono pair r s1 s2 hst hsc
    exact ih _ _ h2 h1

theorem applyRule_stop_stopped (pair : Pair) (st : EvalState) (x : DetectionRule)
    (ha : x.is_active = true) (hm : matchRule pair x = some true)
    (hs : x.stop_on_match = true) : (applyRule pair st x).stopped = true := by
  unfold applyRule
  by_cases h1 : st.stopped = true
  · simp [h1]
  · simp [h1, ha, hm, hs]

theorem applyRule_stopped_stable (pair : Pair) (st : EvalState) (r : DetectionRule)
    (hs : r.stop_on_match = false) : (applyRule pair st r).stopped = st.stopped := by
  unfold applyRule
  split_ifs with h1 h2
  · rfl
  · rcases hm : matchRule pair r with _ | b
    · simp [hm]
    · cases b
      · simp [hm]
      · simp only [hm, hs]
        simp [Bool.not_eq_true] at h1
        exact h1.symm
  · rfl

/-! ## Claims about the Detection Rule Engine -/

/-- C1: for every rule set and prompt/response pair, `Evaluate` is
deterministic — two calls with identical inputs produce identical
`ScoringResult`s (same `risk_score`, `is_flagged`, `flag_reason` list and
order, `matched_rule_ids`) and identical diagnostics; the model is a pure
function of exactly these inputs, so no wall-clock or random input
participates in scoring. -/
theorem C1_evaluate_deterministic (p1 p2 : Pair) (r1 r2 : List DetectionRule)
    (t1 t2 : Nat) (hp : p1 = p2) (hr : r1 = r2) (ht : t1 = t2) :
    evaluate p1 (buildRuleSet r1) t1 = evaluate p2 (buildRuleSet r2) t2 ∧
      (evaluate p1 (buildRuleSet r1) t1).risk_score
        = (evaluate p2 (buildRuleSet r2) t2).risk_score ∧
      (evaluate p1 (buildRuleSet r1) t1).is_flagged
        = (evaluate p2 (buildRuleSet r2) t2).is_flagged ∧
      (evaluate p1 (buildRuleSet r1) t1).flag_reason
        = (evaluate p2 (buildRuleSet r2) t2).flag_reason ∧
      (evaluate p1 (buildRuleSet r1) t1).matched_rule_ids
        = (evaluate p2 (buildRuleSet r2) t2).matched_rule_ids ∧
      evaluateDiagnostics p1 (buildRuleSet r1) = evaluateDiagnostics p2 (buildRuleSet r2) := by
  subst hp
  subst hr
  subst ht
  exact ⟨rfl, rfl, rfl, rfl, rfl, rfl⟩

/-- C1 witness: the determinism theorem applied at a concrete pair, rule
set and threshold. -/
theorem C1_evaluate_deterministic_witness :
    evaluate pairA (buildRuleSet [ruleA1, ruleA2]) 70
      = evaluate pairA (buildRuleSet [ruleA1, ruleA2]) 70 :=
  (C1_evaluate_deterministic pairA pairA [ruleA1, ruleA2] [ruleA1, ruleA2] 70 70
    rfl rfl rfl).1

/-- C2: the `risk_score` returned by `Evaluate` is always in `[0, 100]` —
the running total is capped at 100 no matter how many rules match — and in
concrete scenario A (keyword rules worth 50 and 60 points both matching
the response `"your password is x and api key is y"`) the score is exactly
100 and the result is flagged. -/
theorem C2_risk_score_capped :
    (∀ (pair : Pair) (ruleSet : List DetectionRule) (th : Nat),
        0 ≤ (evaluate pair ruleSet th).risk_score ∧
          (evaluate pair ruleSet th).risk_score ≤ 100) ∧
      (evaluate pairA [ruleA1, ruleA2] defaultRiskThreshold).risk_score = 100 ∧
      (evaluate pairA [ruleA1, ruleA2] defaultRiskThreshold).is_flagged = true := by
  refine ⟨?_, by decide, by decide⟩
  intro pair ruleSet th
  exact ⟨Nat.zero_le _, evalRules_score_le pair ruleSet initState (Nat.zero_le _)⟩

/-- C3: if a rule `x` with `stop_on_match = true` matches, evaluation
terminates at `x`: the result is identical whatever rules of larger
priority follow `x` in the rule set (they contribute nothing to the score,
`flag_reason` or `matched_rule_ids`), and `is_flagged` is true
unconditionally, regardless of the accumulated score and threshold. -/
theorem C3_stop_on_match_short_circuit (pair : Pair) (th : Nat)
    (pre post : List DetectionRule) (x : DetectionRule)
    (ha : x.is_active = true) (hm : matchRule pair x = some true)
    (hs : x.stop_on_match = true) (_hp : ∀ r ∈ post, x.priority < r.priority) :
    evaluate pair (pre ++ x :: post) th = evaluate pair (pre ++ [x]) th ∧
      (evaluate pair (pre ++ x :: post) th).is_flagged = true := by
  have hstop : (applyRule pair (evalRules pair pre initState) x).stopped = true :=
    applyRule_stop_stopped pair _ x ha hm hs
  have key : evalRules pair (pre ++ x :: post) initState
      = applyRule pair (evalRules pair pre initState) x := by
    rw [evalRules_append, evalRules_cons]
    exact evalRules_frozen pair post _ hstop
  have key2 : evalRules pair (pre ++ [x]) initState
      = applyRule pair (evalRules pair pre initState) x := by
    rw [evalRules_append]
    rfl
  constructor
  · unfold evaluate
    rw [key, key2]
  · unfold evaluate mkResult
    simp [key, hstop]

/-- C3 witness: concrete scenario B — the 50-point `password` rule with
`stop_on_match = true` matches first, the 60-point `api key` rule never
contributes, `risk_score = 50 < 70` yet `is_flagged = true`. -/
theorem C3_stop_on_match_short_circuit_witness :
    (evaluate pairA ([] ++ ruleB1 :: [ruleA2]) 70 = evaluate pairA ([] ++ [ruleB1]) 70 ∧
        (evaluate pairA ([] ++ ruleB1 :: [ruleA2]) 70).is_flagged = true) ∧
      (evaluate pairA [ruleB1, ruleA2] 70).risk_score = 50 := by
  refine ⟨C3_stop_on_match_short_circuit pairA 70 [] [ruleA2] ruleB1
    (by decide) (by decide) (by decide) (by decide), by decide⟩

/-- C4: `is_flagged = true` exactly when the loop terminated early via
`stop_on_match` or the capped running total reached the configured flag
threshold; the default threshold is 70 and is overridable per monitored
chatbot via its `risk_threshold`. -/
theorem C4_flag_condition (pair : Pair) (ruleSet : List DetectionRule) (th : Nat)
    (cb : Chatbot) :
    ((evaluate pair ruleSet th).is_flagged = true ↔
        (evalRules pair ruleSet initState).stopped = true ∨
          th ≤ (evaluate pair ruleSet th).risk_score) ∧
      defaultRiskThreshold = 70 ∧
      evaluateDefault pair ruleSet = evaluate pair ruleSet defaultRiskThreshold ∧
      evaluateForChatbot cb pair ruleSet = evaluate pair ruleSet cb.risk_threshold := by
  refine ⟨?_, rfl, rfl, rfl⟩
  simp [evaluate, mkResult]

/-- C5 counterexample: the claim "adding a matching rule can never decrease
`risk_score`" is false — adding the matching 10-point `stop_on_match` rule
`ruleStop10` (priority 1) to the rule set `[rulePw80]` cuts off the
80-point rule and drops the score from 80 to 10. -/
theorem C5_monotonicity_counterexample :
    (evaluate pairPw [ruleStop10, rulePw80] 70).risk_score
      < (evaluate pairPw [rulePw80] 70).risk_score := by
  decide

/-- C5 (amended): adding to the rule set a rule that matches the pair and
has `stop_on_match = false` can only increase or keep equal the resulting
`risk_score`, never decrease it (a matching `stop_on_match` rule can
decrease it by cutting off later rules). -/
theorem C5_amended_monotonicity (pair : Pair) (th : Nat) (l1 l2 : List DetectionRule)
    (x : DetectionRule) (_hm : matchRule pair x = some true)
    (hs : x.stop_on_match = false) :
    (evaluate pair (l1 ++ l2) th).risk_score
      ≤ (evaluate pair (l1 ++ x :: l2) th).risk_score := by
  show (evalRules pair (l1 ++ l2) initState).score
    ≤ (evalRules pair (l1 ++ x :: l2) initState).score
  rw [evalRules_append, evalRules_append, evalRules_cons]
  have h100 : (evalRules pair l1 initState).score ≤ 100 :=
    evalRules_score_le pair l1 initState (Nat.zero_le _)
  exact evalRules_mono pair l2 _ _
    (applyRule_stopped_stable pair _ x hs).symm
    (applyRule_le_self pair _ x h100)

/-- C5 (amended) witness: adding the matching non-stop rule `ruleA1` in
front of `[rulePw80]` does not decrease the score. -/
theorem C5_amended_monotonicity_witness :
    (evaluate pairPw ([] ++ [rulePw80]) 70).risk_score
      ≤ (evaluate pairPw ([] ++ ruleA1 :: [rulePw80]) 70).risk_score :=
  C5_amended_monotonicity pairPw 70 [] [rulePw80] ruleA1 (by decide) (by decide)

/-- C6: an active rule whose regex pattern is malformed is skipped — it
contributes no points, every remaining rule is still evaluated, `Evaluate`
returns the same `ScoringResult` as on the rule set with the malformed
rule removed, and the failure is reported as a non-fatal diagnostic
carrying the rule's name. -/
theorem C6_malformed_regex_isolated (pair : Pair) (th : Nat)
    (l1 l2 : List DetectionRule) (bad : DetectionRule)
    (htype : bad.rule_type = RuleType.regex)
    (hwf : wellFormedRegex bad.pattern = false) :
    evaluate pair (l1 ++ bad :: l2) th = evaluate pair (l1 ++ l2) th ∧
      (bad.is_active = true → bad.name ∈ evaluateDiagnostics pair (l1 ++ bad :: l2)) := by
  have hm : matchRule pair bad = none := by
    simp [matchRule, htype, hwf]
  constructor
  · unfold evaluate
    rw [evalRules_append, evalRules_cons, applyRule_none pair _ bad hm, ← evalRules_append]
  · intro ha
    unfold evaluateDiagnostics
    exact List.mem_map.mpr ⟨bad, List.mem_filter.mpr ⟨by simp, by simp [ha, hm]⟩, rfl⟩

/-- C6 witness: the unbalanced pattern `"(unclosed"` of `ruleBadRegex` is
skipped, the surrounding evaluation is unchanged, and the rule name is
reported as a diagnostic. -/
theorem C6_malformed_regex_isolated_witness :
    evaluate pairA ([ruleA1] ++ ruleBadRegex :: []) 70 = evaluate pairA ([ruleA1] ++ []) 70 ∧
      "broken regex" ∈ evaluateDiagnostics pairA ([ruleA1] ++ ruleBadRegex :: []) := by
  obtain ⟨h1, h2⟩ := C6_malformed_regex_isolated pairA 70 [ruleA1] [] ruleBadRegex
    (by decide) (by decide)
  exact ⟨h1, h2 (by decide)⟩

/-! ## Session Aggregator lemmas -/

theorem ingest_request_count (s : Session) (e : ScoredEvent) :
    (s.ingest e).request_count = s.request_count + 1 := rfl

theorem ingest_flagged_count (s : Session) (e : ScoredEvent) :
    (s.ingest e).flagged_count = s.flagged_count + (if e.is_flagged then 1 else 0) := rfl

theorem ingest_risk_total (s : Session) (e : ScoredEvent) :
    (s.ingest e).risk_total = s.risk_total + e.risk_score := rfl

theorem ingest_bucketCount (s : Session) (e : ScoredEvent) (b : Severity) :
    (s.ingest e).bucketCount b
      = s.bucketCount b + (if b = scoreBucket e.risk_score then 1 else 0) := by
  rcases hb : scoreBucket e.risk_score <;> cases b <;>
    simp [Session.ingest, Session.bucketCount, hb]

theorem ingest_risk_level (s : Session) (e : ScoredEvent) :
    (s.ingest e).risk_level = worstNonzeroBucket (s.ingest e) := rfl

theorem ingest_level (s : Session) (e : ScoredEvent) :
    (s.ingest e).risk_level = maxSev (worstNonzeroBucket s) (scoreBucket e.risk_score) := by
  rcases hb : scoreBucket e.risk_score <;>
    simp [Session.ingest, worstNonzeroBucket, maxSev, sevRank, hb] <;>
    split_ifs <;> simp_all

theorem foldl_ingest_risk_level (events : List ScoredEvent) :
    ∀ s : Session, s.risk_level = worstNonzeroBucket s →
      (events.foldl Session.ingest s).risk_level
        = worstNonzeroBucket (events.foldl Session.ingest s) := by
  induction events with
  | nil => intro s h; exact h
  | cons e rest ih =>
    intro s _
    simp only [List.foldl_cons]
    exact ih _ (ingest_risk_level s e)

theorem foldl_ingest_level (events : List ScoredEvent) :
    ∀ s : Session, s.risk_level = worstNonzeroBucket s →
      (events.foldl Session.ingest s).risk_level
        = events.foldl (fun w e => maxSev w (scoreBucket e.risk_score)) s.risk_level := by
  induction events with
  | nil => intro s _; rfl
  | cons e rest ih =>
    intro s h
    simp only [List.foldl_cons]
    rw [ih _ (ingest_risk_level s e)]
    congr 1
    rw [ingest_level s e, h]

theorem foldl_ingest_request_count (events : List ScoredEvent) :
    ∀ s : Session, (events.foldl Session.ingest s).request_count
      = s.request_count + events.length := by
  induction events with
  | nil => intro s; rfl
  | cons e rest ih =>
    intro s
    simp only [List.foldl_cons, List.length_cons]
    rw [ih (s.ingest e), ingest_request_count]
    omega

theorem foldl_ingest_risk_total (events : List ScoredEvent) :
    ∀ s : Session, (events.foldl Session.ingest s).risk_total
      = s.risk_total + (events.map (fun e => e.risk_score)).sum := by
  induction events with
  | nil => intro s; simp
  | cons e rest ih =>
    intro s
    simp only [List.foldl_cons, List.map_cons, List.sum_cons]
    rw [ih (s.ingest e), ingest_risk_total]
    omega

/-! ## Claims about the Session Aggregator -/

/-- C7: every session state reachable by ingesting a sequence of events has
`risk_level` equal to the highest-severity bucket with non-zero count in its
`risk_breakdown` — equivalently the worst severity bucket among the ingested
events — and never the bucket of the arithmetic average of scores, as the
concrete four-event run (average 25, bucket `low`, yet `risk_level`
`critical`) separates. -/
theorem C7_risk_level_worst_bucket :
    (∀ (ip : String) (t : Nat) (events : List ScoredEvent),
        (replaySession ip t events).risk_level
          = worstNonzeroBucket (replaySession ip t events)) ∧
      (∀ (ip : String) (t : Nat) (events : List ScoredEvent),
        (replaySession ip t events).risk_level
          = events.foldl (fun w e => maxSev w (scoreBucket e.risk_score)) Severity.low) ∧
      ((replaySession "1.2.3.4" 0 demoEvents).risk_level = Severity.critical ∧
        scoreBucket ((replaySession "1.2.3.4" 0 demoEvents).risk_total
            / (replaySession "1.2.3.4" 0 demoEvents).request_count) = Severity.low) := by
  refine ⟨?_, ?_, by decide, by decide⟩
  · intro ip t events
    exact foldl_ingest_risk_level events _ rfl
  · intro ip t events
    have h := foldl_ingest_level events (Session.empty ip t) rfl
    simpa [replaySession] using h

/-- C8: `Ingest` increments `request_count` by exactly 1, keeps
`avg_risk_score` the running mean of all ingested scores, increments
`flagged_count` by 1 exactly when the event is flagged, and increments by 1
exactly the `risk_breakdown` bucket of the event's severity (derived from
`risk_score`: critical ≥ 90, high ≥ 70, medium ≥ 40, else low); in the
concrete five-event run with three flagged events, `request_count = 5` and
`flagged_count = 3`. -/
theorem C8_ingest_postconditions :
    (∀ (s : Session) (e : ScoredEvent),
        (s.ingest e).request_count = s.request_count + 1) ∧
      (∀ (s : Session) (e : ScoredEvent),
        (s.ingest e).flagged_count = s.flagged_count + (if e.is_flagged then 1 else 0)) ∧
      (∀ (s : Session) (e : ScoredEvent) (b : Severity),
        (s.ingest e).bucketCount b
          = s.bucketCount b + (if b = scoreBucket e.risk_score then 1 else 0)) ∧
      (∀ (ip : String) (t : Nat) (events : List ScoredEvent),
        (replaySession ip t events).avg_risk_score
          = ((events.map (fun e => e.risk_score)).sum : ℚ) / (events.length : ℚ)) ∧
      ((replaySession "1.2.3.4" 0 eventsC).request_count = 5 ∧
        (replaySession "1.2.3.4" 0 eventsC).flagged_count = 3) := by
  refine ⟨fun s e => ingest_request_count s e, fun s e => ingest_flagged_count s e,
    fun s e b => ingest_bucketCount s e b, ?_, by decide, by decide⟩
  intro ip t events
  unfold Session.avg_risk_score replaySession
  rw [foldl_ingest_risk_total, foldl_ingest_request_count]
  simp [Session.empty, Function.comp_def]

/-! ## Alert Rule Engine lemmas -/

theorem activeCount_zero_not_blocked (alerts : List Alert) (r : Nat) (act : String)
    (t cd : Nat) (h : activeCount alerts r act = 0) :
    dedupBlocked alerts r act t cd = false := by
  have hnil : alerts.filter (alertActiveFor r act) = [] := List.length_eq_zero.mp h
  unfold dedupBlocked
  rw [List.any_eq_false]
  intro a ha
  have hact : alertActiveFor r act a = false := by
    by_contra hc
    have htrue : alertActiveFor r act a = true := by
      cases hh : alertActiveFor r act a
      · exact absurd hh hc
      · rfl
    have : a ∈ alerts.filter (alertActiveFor r act) := List.mem_filter.mpr ⟨ha, htrue⟩
    rw [hnil] at this
    exact absurd this (List.not_mem_nil a)
  simp [hact]

/-! ## Claims about the Alert Rule Engine and the client -/

/-- C9: if the same `(alert_rule_id, actor)` pairing fires twice within the
cool-down window (default 15 minutes) while the alert created by the first
firing is still in `new`/`acknowledged` status, the engine does not create
a second alert — exactly one alert in `new`/`acknowledged` status exists
for that pairing afterwards. -/
theorem C9_alert_dedup (alerts : List Alert) (r : Nat) (act : String) (t1 t2 cd : Nat)
    (h0 : activeCount alerts r act = 0) (_h12 : t1 ≤ t2) (hwin : t2 < t1 + cd) :
    activeCount (emitAlert (emitAlert alerts r act t1 cd) r act t2 cd) r act = 1 ∧
      defaultCooldownMinutes = 15 := by
  refine ⟨?_, rfl⟩
  have hb1 : dedupBlocked alerts r act t1 cd = false :=
    activeCount_zero_not_blocked alerts r act t1 cd h0
  have he1 : emitAlert alerts r act t1 cd
      = alerts ++ [{ alert_rule_id := r, actor := act, status := AlertStatus.new
                     created_at := t1 }] := by
    simp [emitAlert, hb1]
  have hactA : alertActiveFor r act
      { alert_rule_id := r, actor := act, status := AlertStatus.new, created_at := t1 }
        = true := by
    simp [alertActiveFor]
  have hb2 : dedupBlocked
      (alerts ++ [{ alert_rule_id := r, actor := act, status := AlertStatus.new
                    created_at := t1 }]) r act t2 cd = true := by
    unfold dedupBlocked
    rw [List.any_eq_true]
    refine ⟨_, List.mem_append_right alerts (List.mem_singleton_self _), ?_⟩
    simp [hactA, hwin]
  have he2 : emitAlert
      (alerts ++ [{ alert_rule_id := r, actor := act, status := AlertStatus.new
                    created_at := t1 }]) r act t2 cd
      = alerts ++ [{ alert_rule_id := r, actor := act, status := AlertStatus.new
                     created_at := t1 }] := by
    simp [emitAlert, hb2]
  rw [he1, he2]
  unfold activeCount
  rw [List.filter_append, List.length_eq_zero.mp h0]
  simp [hactA]

/-- C9 witness: the dedup theorem at a concrete state — empty alert store,
rule 1, actor `1.2.3.4`, firings at minutes 0 and 5 inside a 15-minute
cool-down. -/
theorem C9_alert_dedup_witness :
    activeCount (emitAlert (emitAlert [] 1 "1.2.3.4" 0 15) 1 "1.2.3.4" 5 15) 1 "1.2.3.4" = 1 ∧
      defaultCooldownMinutes = 15 :=
  C9_alert_dedup [] 1 "1.2.3.4" 0 5 15 (by decide) (by decide) (by decide)

/-- C10: `FlagWiseChatbotMonitor.monitor_response` never propagates an
HTTP/network exception: a raised `RequestException` (including the
`HTTPError` raised by `raise_for_status` for a 4xx/5xx status) yields a
dict mapping `"error"` to the exception's string, and a successful (2xx)
POST yields the parsed JSON response body. -/
theorem C10_monitor_response_no_propagation :
    (∀ msg : String, monitor_response (PostOutcome.raised msg) = [("error", msg)]) ∧
      (∀ (status : Nat) (body : List (String × String)), 200 ≤ status → status < 300 →
        monitor_response (PostOutcome.response status body) = body) ∧
      (∀ (status : Nat) (body : List (String × String)), 400 ≤ status → status < 600 →
        monitor_response (PostOutcome.response status body)
          = [("error", httpErrorMessage status)]) := by
  refine ⟨fun msg => rfl, ?_, ?_⟩
  · intro status body h1 h2
    have hr : raiseForStatus status = none := by
      unfold raiseForStatus
      rw [if_neg (by omega)]
    simp [monitor_response, hr]
  · intro status body h1 h2
    have hr : raiseForStatus status = some (httpErrorMessage status) := by
      unfold raiseForStatus
      rw [if_pos (by omega)]
    simp [monitor_response, hr]

/-- C10 witness: the theorem at a raised exception, a 200 response and a
404 response. -/
theorem C10_monitor_response_no_propagation_witness :
    monitor_response (PostOutcome.raised "connection refused") = [("error", "connection refused")] ∧
      monitor_response (PostOutcome.response 200 [("risk_score", "85")]) = [("risk_score", "85")] ∧
      monitor_response (PostOutcome.response 404 []) = [("error", httpErrorMessage 404)] :=
  ⟨C10_monitor_response_no_propagation.1 "connection refused",
    C10_monitor_response_no_propagation.2.1 200 [("risk_score", "85")] (by decide) (by decide),
    C10_monitor_response_no_propagation.2.2 404 [] (by decide) (by decide)⟩

end Trust
